import Mathlib

/-!
Verification of the pixel_zero display stack (src/pixel_zero/src/graphics).

The Rust sources are shallowly embedded: every fallible driver call is
represented by a result supplied through an environment record, and every
function that talks to the kernel or the GPU additionally returns the ordered
trace of the calls it issued, so that ordering and rollback properties can be
stated as facts about the produced trace and state.
-/

namespace PixelZero

/-- Mirrors `DrmError` from src/pixel_zero/src/graphics/drm.rs: `IO`,
`NoConnectors`, `NoCRTC`.  The `io` payload abstracts the OS error code. -/
inductive DrmError where
  | io (e : Nat)
  | noConnectors
  | noCRTC
deriving DecidableEq

/-- Mirrors `khronos_egl::Error` as used by egl.rs: the variants the code
produces itself (`BadDisplay`, `BadConfig`, `BadSurface`) plus an abstract
code for every other propagated EGL error. -/
inductive EglError where
  | badDisplay
  | badConfig
  | badSurface
  | other (code : Nat)
deriving DecidableEq

/-- Mirrors `GraphicsError` from src/pixel_zero/src/graphics/mod.rs.
`shader`/`framebuffer`/`frontBuffer` payloads are abstracted to codes. -/
inductive GraphicsError where
  | io (e : Nat)
  | drm (e : DrmError)
  | egl (e : EglError)
  | shader (e : Nat)
  | framebuffer (e : Nat)
  | frontBuffer (e : Nat)
  | alreadyLoaded
deriving DecidableEq

/-- A DRM display mode as used by `Drm::load` (drm.rs): geometry, refresh
rate, and whether `mode_type()` contains `ModeTypeFlags::PREFERRED`. -/
structure Mode where
  width : Nat
  height : Nat
  refresh : Nat
  preferred : Bool
deriving DecidableEq

/-- Mode selection in `Drm::load` (drm.rs lines 87-91):
`connector.modes().iter().find(|m| m.mode_type().contains(PREFERRED))
.unwrap_or_else(|| &connector.modes()[0])`.  The closure indexes `[0]`
unconditionally, so `none` models the out-of-bounds panic on an empty list. -/
def selectMode (modes : List Mode) : Option Mode :=
  match modes.find? fun m => m.preferred with
  | some m => some m
  | none => modes.head?

/-- A connector as seen by `Drm::load`: its reported connection state
(`connector.state() == State::Connected`) and mode list. -/
structure Connector where
  connected : Bool
  modes : List Mode
deriving DecidableEq

/-- The connector-then-mode selection prefix of `Drm::load` (drm.rs lines
48-55 and 87-91): the first connector reporting `Connected` is chosen
(`DrmError::NoConnectors` otherwise), then `selectMode` runs on its mode
list.  `.ok none` means the function reached mode selection and panicked
there (empty mode list), rather than returning a `DrmError`. -/
def drmLoadModeSelection (connectors : List Connector) : Except DrmError (Option Mode) :=
  match connectors.find? fun c => c.connected with
  | none => .error .noConnectors
  | some conn => .ok (selectMode conn.modes)

/-- The fields of `crtc::Info` that `Drm::load` and `Drop for Drm` read:
`handle()`, `position()`, `framebuffer()`, `mode()`. -/
structure CrtcInfo where
  handle : Nat
  position : Nat × Nat
  framebuffer : Option Nat
  mode : Option Mode
deriving DecidableEq

/-- Mirrors `OriginalState` (drm.rs lines 27-32). -/
structure OriginalState where
  crtc : CrtcInfo
  framebuffer : Option Nat
  connectors : List Nat
  mode : Option Mode
deriving DecidableEq

/-- The capture in `Drm::load` (drm.rs lines 62-85): given the `crtc::Info`
of the connector's current encoder's CRTC and the list of connector handles
currently driven by that CRTC, the stored state is exactly
`{ crtc: crtc_info, framebuffer: crtc_info.framebuffer(), connectors, mode:
crtc_info.mode() }`. -/
def captureOriginalState (crtcInfo : CrtcInfo) (connectors : List Nat) : OriginalState :=
  { crtc := crtcInfo
    framebuffer := crtcInfo.framebuffer
    connectors := connectors
    mode := crtcInfo.mode }

/-- One `set_crtc` mode-set request, with the argument tuple of
`ControlDevice::set_crtc(crtc, fb, pos, connectors, mode)`. -/
structure BindCall where
  crtc : Nat
  framebuffer : Option Nat
  position : Nat × Nat
  connectors : List Nat
  mode : Option Mode
deriving DecidableEq

/-- `Drop for Drm` (drm.rs lines 141-153): when an original state was
captured, one `set_crtc` bind with exactly the captured fields is issued and
its result is discarded (`let _ = ...`); with no captured state nothing is
issued.  The function is total and its output ignores `setCrtcResult`,
modelling that drop neither panics nor propagates the bind failure. -/
def drmDrop (original : Option OriginalState)
    (setCrtcResult : BindCall → Except DrmError Unit) : List BindCall :=
  match original with
  | none => []
  | some st =>
    let call : BindCall :=
      { crtc := st.crtc.handle
        framebuffer := st.framebuffer
        position := st.crtc.position
        connectors := st.connectors
        mode := st.mode }
    let _ := setCrtcResult call
    [call]

/-- The name pattern `Gpu::open` matches against (drm.rs line 171):
`name.starts_with("card")`; names are modelled as character lists. -/
def cardName : List Char := ['c', 'a', 'r', 'd']

/-- One entry of the `/dev/dri` directory listing as `Gpu::open` observes it:
the result of `file.file_type()?.is_char_device()`, the result of
`file_name().to_str()` (`none` for non-UTF-8 names), and the result of
opening the node with read+write access. -/
structure DirEntry where
  fileTypeResult : Except Nat Bool
  name : Option (List Char)
  openResult : Except Nat Nat

/-- The error type of `Gpu::open`: a propagated I/O error from reading an
entry, querying a file type, or opening a node, or the final
`ErrorKind::NotFound` ("No valid DRM device found") error. -/
inductive GpuOpenError where
  | io (e : Nat)
  | notFound
deriving DecidableEq

/-- `Gpu::open` (drm.rs lines 160-181).  The input is the `/dev/dri` listing:
each element is either a failed `read_dir` entry (`.error`) or an entry.
Entries that are not character devices, have non-UTF-8 names, or whose name
does not start with "card" are skipped.  The first matching entry is opened;
note the `?` on `open` — an open failure is returned immediately, later
entries are not tried.  If the loop finishes, `notFound` is returned. -/
def gpuOpen : List (Except Nat DirEntry) → Except GpuOpenError Nat
  | [] => .error .notFound
  | (.error e) :: _ => .error (.io e)
  | (.ok entry) :: rest =>
    match entry.fileTypeResult with
    | .error e => .error (.io e)
    | .ok isChar =>
      if isChar = false then gpuOpen rest
      else
        match entry.name with
        | none => gpuOpen rest
        | some n =>
          if cardName.isPrefixOf n = false then gpuOpen rest
          else
            match entry.openResult with
            | .error e => .error (.io e)
            | .ok handle => .ok handle

/-- An entry that `Gpu::open` skips with `continue`: it is readable and its
file type query succeeds, but it is not a character device, or its name is
not UTF-8, or its name does not start with "card". -/
def entrySkipped (x : Except Nat DirEntry) : Bool :=
  match x with
  | .error _ => false
  | .ok entry =>
    match entry.fileTypeResult with
    | .error _ => false
    | .ok isChar =>
      if isChar = false then true
      else
        match entry.name with
        | none => true
        | some n => !(cardName.isPrefixOf n)

/-- The EGL / GL calls `Egl::load` (egl.rs lines 41-93) can issue, in the
vocabulary of the claim; `swapInterval` is included so that its absence from
every produced trace is expressible. -/
inductive EglCall where
  | getDisplay
  | initDisplay
  | bindApi
  | chooseConfig
  | getConfigAttrib
  | initSurface (format : Nat)
  | createContext
  | createWindowSurface
  | makeCurrent
  | loadGlFunctions
  | swapInterval (interval : Nat)
  | swapBuffers
deriving DecidableEq

/-- The driver-side results `Egl::load` consumes, one per fallible call. -/
structure EglEnv where
  displayHandle : Option Nat
  initResult : Except EglError (Nat × Nat)
  bindApiResult : Except EglError Unit
  configList : Except EglError (List Nat)
  nativeVisualId : Nat → Except EglError Nat
  initSurfaceResult : Nat → Except Nat Unit
  createContextResult : Nat → Except EglError Nat
  createWindowSurfaceResult : Nat → Except EglError Nat
  makeCurrentResult : Except EglError Unit
  swapBuffersResult : Except EglError Unit

/-- `Egl::load` (egl.rs lines 41-93), returning the trace of EGL/GL calls in
program order and the result (the created window surface on success).  The
sequence in the source is: `get_display` (`BadDisplay` if null), `initialize`,
`bind_api`, `choose_config` (first config, `BadConfig` if none),
`get_config_attrib(NATIVE_VISUAL_ID)`, `gbm.init_surface(format)` (mapped to
`BadSurface` on failure), `create_context`, `create_window_surface`,
`make_current`, GL function loading and viewport/extension setup (infallible
here), and a final `swap_buffers`.  No swap-interval call appears anywhere. -/
def eglLoad (env : EglEnv) : List EglCall × Except EglError Nat :=
  match env.displayHandle with
  | none => ([.getDisplay], .error .badDisplay)
  | some _ =>
  match env.initResult with
  | .error e => ([.getDisplay, .initDisplay], .error e)
  | .ok _ =>
  match env.bindApiResult with
  | .error e => ([.getDisplay, .initDisplay, .bindApi], .error e)
  | .ok _ =>
  match env.configList with
  | .error e => ([.getDisplay, .initDisplay, .bindApi, .chooseConfig], .error e)
  | .ok configs =>
  match configs.head? with
  | none => ([.getDisplay, .initDisplay, .bindApi, .chooseConfig], .error .badConfig)
  | some config =>
  match env.nativeVisualId config with
  | .error e =>
    ([.getDisplay, .initDisplay, .bindApi, .chooseConfig, .getConfigAttrib], .error e)
  | .ok visual =>
  match env.initSurfaceResult visual with
  | .error _ =>
    ([.getDisplay, .initDisplay, .bindApi, .chooseConfig, .getConfigAttrib,
      .initSurface visual], .error .badSurface)
  | .ok _ =>
  match env.createContextResult config with
  | .error e =>
    ([.getDisplay, .initDisplay, .bindApi, .chooseConfig, .getConfigAttrib,
      .initSurface visual, .createContext], .error e)
  | .ok _ =>
  match env.createWindowSurfaceResult config with
  | .error e =>
    ([.getDisplay, .initDisplay, .bindApi, .chooseConfig, .getConfigAttrib,
      .initSurface visual, .createContext, .createWindowSurface], .error e)
  | .ok surface =>
  match env.makeCurrentResult with
  | .error e =>
    ([.getDisplay, .initDisplay, .bindApi, .chooseConfig, .getConfigAttrib,
      .initSurface visual, .createContext, .createWindowSurface, .makeCurrent], .error e)
  | .ok _ =>
  match env.swapBuffersResult with
  | .error e =>
    ([.getDisplay, .initDisplay, .bindApi, .chooseConfig, .getConfigAttrib,
      .initSurface visual, .createContext, .createWindowSurface, .makeCurrent,
      .loadGlFunctions, .swapBuffers], .error e)
  | .ok _ =>
    ([.getDisplay, .initDisplay, .bindApi, .chooseConfig, .getConfigAttrib,
      .initSurface visual, .createContext, .createWindowSurface, .makeCurrent,
      .loadGlFunctions, .swapBuffers], .ok surface)

/-- The mutable scanout fields of `Graphics` (mod.rs lines 60-76) that
`present_frame` updates: the current DRM framebuffer handle and the GBM
buffer object backing it (abstracted to an id). -/
structure Graphics where
  drmFb : Nat
  bufferObject : Nat
deriving DecidableEq

/-- The calls `Graphics::present_frame` issues, in the claim's vocabulary. -/
inductive PresentAction where
  | renderFrame
  | swapBuffers
  | lockFrontBuffer
  | addFramebuffer (bo : Nat)
  | pageFlip (fb : Nat)
  | receiveEvents
  | destroyFramebuffer (fb : Nat)
deriving DecidableEq

/-- The driver-side results `Graphics::present_frame` consumes:
`swap_buffers`, `lock_front_buffer` (yielding a buffer-object id),
`add_framebuffer` (yielding the new DRM fb handle), `page_flip`,
`receive_events`, and `destroy_framebuffer`. -/
structure PresentEnv where
  swapResult : Except EglError Unit
  lockResult : Except Nat Nat
  addFbResult : Nat → Except Nat Nat
  flipResult : Nat → Except Nat Unit
  receiveResult : Except Nat Unit
  destroyResult : Nat → Except Nat Unit

/-- `Graphics::present_frame` (mod.rs lines 142-168).  Returns the call
trace, the state of the `drm_fb`/`buffer_object` fields after the call (each
early `?` return leaves them at their entry values; they are reassigned only
after `destroy_framebuffer` succeeds), and the error if any.  Program order:
render into the off-screen framebuffer (infallible), `swap_buffers`,
`lock_front_buffer`, `add_framebuffer`, `page_flip(crtc, new_fb, EVENT)`,
`receive_events`, `destroy_framebuffer(self.drm_fb)`, then
`self.buffer_object = buffer_object; self.drm_fb = drm_fb`. -/
def presentFrame (env : PresentEnv) (s : Graphics) :
    List PresentAction × Graphics × Option GraphicsError :=
  match env.swapResult with
  | .error e => ([.renderFrame, .swapBuffers], s, some (.egl e))
  | .ok _ =>
  match env.lockResult with
  | .error e => ([.renderFrame, .swapBuffers, .lockFrontBuffer], s, some (.frontBuffer e))
  | .ok bo =>
  match env.addFbResult bo with
  | .error e =>
    ([.renderFrame, .swapBuffers, .lockFrontBuffer, .addFramebuffer bo], s, some (.io e))
  | .ok fb =>
  match env.flipResult fb with
  | .error e =>
    ([.renderFrame, .swapBuffers, .lockFrontBuffer, .addFramebuffer bo, .pageFlip fb],
      s, some (.io e))
  | .ok _ =>
  match env.receiveResult with
  | .error e =>
    ([.renderFrame, .swapBuffers, .lockFrontBuffer, .addFramebuffer bo, .pageFlip fb,
      .receiveEvents], s, some (.io e))
  | .ok _ =>
  match env.destroyResult s.drmFb with
  | .error e =>
    ([.renderFrame, .swapBuffers, .lockFrontBuffer, .addFramebuffer bo, .pageFlip fb,
      .receiveEvents, .destroyFramebuffer s.drmFb], s, some (.io e))
  | .ok _ =>
    ([.renderFrame, .swapBuffers, .lockFrontBuffer, .addFramebuffer bo, .pageFlip fb,
      .receiveEvents, .destroyFramebuffer s.drmFb],
      { drmFb := fb, bufferObject := bo }, none)

/-- True exactly when the five fallible steps of `present_frame` before the
retire step (GPU buffer swap, front-buffer acquire, framebuffer
registration, page-flip request, event drain) all succeed in `env`. -/
def firstFiveOk (env : PresentEnv) : Bool :=
  match env.swapResult with
  | .error _ => false
  | .ok _ =>
  match env.lockResult with
  | .error _ => false
  | .ok bo =>
  match env.addFbResult bo with
  | .error _ => false
  | .ok fb =>
  match env.flipResult fb with
  | .error _ => false
  | .ok _ =>
  match env.receiveResult with
  | .error _ => false
  | .ok _ => true

/-- The load-time steps `Graphics::load` performs after passing the atomic
guard (mod.rs lines 85-102), in program order. -/
inductive LoadAction where
  | terminalGuard
  | drmLoad
  | gbmLoad
  | eglLoad
  | lockFrontBuffer
  | addFramebuffer (bo : Nat)
  | setCrtc (fb : Nat)
  | framebufferLoad
deriving DecidableEq

/-- The results of the fallible sub-steps of `Graphics::load`. -/
structure GraphicsLoadEnv where
  terminalResult : Except Nat Unit
  drmResult : Except DrmError Unit
  gbmResult : Except Nat Unit
  eglResult : Except EglError Unit
  lockResult : Except Nat Nat
  addFbResult : Nat → Except Nat Nat
  setCrtcResult : Nat → Except Nat Unit
  framebufferResult : Except Nat Unit

/-- `Graphics::load` (mod.rs lines 80-119) at the level of the load guard.
Input: the current value of the `GRAPHICS_LOADED` atomic.  Output: the value
of the atomic after the call, the trace of sub-steps reached, and the
result.  `GRAPHICS_LOADED.swap(true)` returning `true` short-circuits to
`AlreadyLoaded` before any other step; no failure path stores `false` back
(only `Drop for Graphics` does, mod.rs line 191). -/
def graphicsLoad (loaded : Bool) (env : GraphicsLoadEnv) :
    Bool × List LoadAction × Except GraphicsError Graphics :=
  if loaded then (true, [], .error .alreadyLoaded)
  else
    match env.terminalResult with
    | .error e => (true, [.terminalGuard], .error (.io e))
    | .ok _ =>
    match env.drmResult with
    | .error e => (true, [.terminalGuard, .drmLoad], .error (.drm e))
    | .ok _ =>
    match env.gbmResult with
    | .error e => (true, [.terminalGuard, .drmLoad, .gbmLoad], .error (.io e))
    | .ok _ =>
    match env.eglResult with
    | .error e => (true, [.terminalGuard, .drmLoad, .gbmLoad, .eglLoad], .error (.egl e))
    | .ok _ =>
    match env.lockResult with
    | .error e =>
      (true, [.terminalGuard, .drmLoad, .gbmLoad, .eglLoad, .lockFrontBuffer],
        .error (.frontBuffer e))
    | .ok bo =>
    match env.addFbResult bo with
    | .error e =>
      (true, [.terminalGuard, .drmLoad, .gbmLoad, .eglLoad, .lockFrontBuffer,
        .addFramebuffer bo], .error (.io e))
    | .ok fb =>
    match env.setCrtcResult fb with
    | .error e =>
      (true, [.terminalGuard, .drmLoad, .gbmLoad, .eglLoad, .lockFrontBuffer,
        .addFramebuffer bo, .setCrtc fb], .error (.io e))
    | .ok _ =>
    match env.framebufferResult with
    | .error e =>
      (true, [.terminalGuard, .drmLoad, .gbmLoad, .eglLoad, .lockFrontBuffer,
        .addFramebuffer bo, .setCrtc fb, .framebufferLoad], .error (.framebuffer e))
    | .ok _ =>
      (true, [.terminalGuard, .drmLoad, .gbmLoad, .eglLoad, .lockFrontBuffer,
        .addFramebuffer bo, .setCrtc fb, .framebufferLoad],
        .ok { drmFb := fb, bufferObject := bo })

/-- `Drop for Graphics` (mod.rs lines 186-193): destroy the current
framebuffer handle (result logged, not propagated) and store `false` into
`GRAPHICS_LOADED`.  Returns the new guard value and the trace. -/
def graphicsDrop (s : Graphics) (destroyResult : Nat → Except Nat Unit) :
    Bool × List PresentAction :=
  let _ := destroyResult s.drmFb
  (false, [PresentAction.destroyFramebuffer s.drmFb])

/-- A glyph as stored by `Font` (font.rs lines 220-233): its atlas region
(abstracted to an id) and its advance width. -/
structure Glyph where
  region : Nat
  advance : Nat
deriving DecidableEq

/-- The glyph-lookup state of `Font` (font.rs lines 29-34): the glyph table
and the optional unicode character map (an association from chars to glyph
indices). -/
structure Font where
  glyphs : List Glyph
  charMap : Option (List (Char × Nat))
deriving DecidableEq

/-- `Font::glyph` (font.rs lines 204-213): with a unicode map, look the char
up there (`None` if absent) and index the glyph table with the mapped index;
without one, index the glyph table with the char's code point.  `none` when
the index is out of range (`glyphs.get(index)`). -/
def Font.glyph (f : Font) (c : Char) : Option Glyph :=
  match f.charMap with
  | some m =>
    match m.find? fun p => p.1 == c with
    | none => none
    | some p => f.glyphs.get? p.2
  | none => f.glyphs.get? c.toNat

/-- `Font::default_glyph` (font.rs lines 215-217) returns `&self.glyphs[0]`;
`none` models the index panic on an empty glyph table. -/
def Font.defaultGlyph (f : Font) : Option Glyph :=
  f.glyphs.get? 0

/-- Reinterpretation of an integer as a two's-complement 32-bit value: the
centered representative modulo 2^32, in [-2^31, 2^31).  Models Rust `i32`
wrapping arithmetic and the `u32::cast_signed` reinterpretation. -/
def toInt32 (x : Int) : Int :=
  (x + 2147483648) % 4294967296 - 2147483648

/-- The kernel of `Framebuffer::draw_text` (framebuffer.rs lines 233-250):
for each character, `font.glyph(char).unwrap_or(font.default_glyph())` picks
the glyph, one quad is drawn at `position + ivec2(advance, 0)`, and the
cursor advances by `advance += glyph.advance().cast_signed()`.  The cursor
is an `i32`: `cast_signed` reinterprets the stored `u32` advance and both
additions wrap modulo 2^32 (release-build semantics; a debug build panics on
overflow), modelled with `toInt32`.  The result is the list of drawn quads
as (x position, glyph used); `none` models the `glyphs[0]` panic of
`default_glyph` on an empty glyph table. -/
def drawTextQuads (f : Font) (text : List Char) (posX : Int) (advance : Int) :
    Option (List (Int × Glyph)) :=
  match text with
  | [] => some []
  | c :: cs =>
    match f.defaultGlyph with
    | none => none
    | some d =>
      let g := (f.glyph c).getD d
      match drawTextQuads f cs posX (toInt32 (advance + toInt32 (g.advance : Int))) with
      | none => none
      | some rest => some ((toInt32 (posX + advance), g) :: rest)

/-- `Framebuffer::draw_text` entry point: the cursor starts at `advance = 0`
(framebuffer.rs line 233). -/
def drawText (f : Font) (text : List Char) (posX : Int) : Option (List (Int × Glyph)) :=
  drawTextQuads f text posX 0

/-- The glyph `draw_text` uses for a character, given the default glyph `d`:
the font's glyph for the character, or `d` when absent. -/
def Font.glyphOrDefault (f : Font) (d : Glyph) (c : Char) : Glyph :=
  (f.glyph c).getD d

/-- Sum of the stored advance widths of the glyphs `draw_text` uses for the
characters of `text` (with default glyph `d`). -/
def advanceSum (f : Font) (d : Glyph) (text : List Char) : Int :=
  (text.map fun c => ((f.glyphOrDefault d c).advance : Int)).sum

/-- The 1920x1080@60 preferred mode of the claim's first scenario. -/
def mode1080p : Mode := { width := 1920, height := 1080, refresh := 60, preferred := true }

/-- The 1280x720@60 non-preferred mode of the claim's first scenario. -/
def mode720p : Mode := { width := 1280, height := 720, refresh := 60, preferred := false }

/-- The 720x480@60 mode of the claim's second scenario (no preferred flag). -/
def mode480p : Mode := { width := 720, height := 480, refresh := 60, preferred := false }

/-- The 640x480@60 mode of the claim's second scenario (no preferred flag). -/
def mode480s : Mode := { width := 640, height := 480, refresh := 60, preferred := false }

/-- Device-node name of the first matching entry in the `Gpu::open` example. -/
def exCard0 : List Char := ['c', 'a', 'r', 'd', '0']

/-- Device-node name of the second matching entry in the `Gpu::open` example. -/
def exCard1 : List Char := ['c', 'a', 'r', 'd', '1']

/-- A matching `/dev/dri` entry whose open fails (e.g. `EACCES`, code 13). -/
def entryCard0Denied : DirEntry :=
  { fileTypeResult := .ok true, name := some exCard0, openResult := .error 13 }

/-- A matching `/dev/dri` entry whose open succeeds with handle 3. -/
def entryCard1Ok : DirEntry :=
  { fileTypeResult := .ok true, name := some exCard1, openResult := .ok 3 }

/-- An environment in which every EGL call of `Egl::load` succeeds. -/
def exEglEnv : EglEnv :=
  { displayHandle := some 1
    initResult := .ok (1, 5)
    bindApiResult := .ok ()
    configList := .ok [21]
    nativeVisualId := fun _ => .ok 875713112
    initSurfaceResult := fun _ => .ok ()
    createContextResult := fun _ => .ok 31
    createWindowSurfaceResult := fun _ => .ok 41
    makeCurrentResult := .ok ()
    swapBuffersResult := .ok () }

/-- A present environment where every driver call succeeds: the front buffer
locks as object 5 and registering object `bo` yields handle `bo + 2`. -/
def exPresentOkEnv : PresentEnv :=
  { swapResult := .ok ()
    lockResult := .ok 5
    addFbResult := fun bo => .ok (bo + 2)
    flipResult := fun _ => .ok ()
    receiveResult := .ok ()
    destroyResult := fun _ => .ok () }

/-- A present environment where the page-flip request fails (code 22). -/
def exPresentFailEnv : PresentEnv :=
  { exPresentOkEnv with flipResult := fun _ => .error 22 }

/-- Scanout state at entry of the example `present_frame` call. -/
def exGraphics : Graphics := { drmFb := 3, bufferObject := 4 }

/-- Scanout state after the successful example `present_frame` call. -/
def exGraphicsAfter : Graphics := { drmFb := 7, bufferObject := 5 }

/-- A load environment in which `Drm::load` fails with `NoConnectors`. -/
def exLoadFailEnv : GraphicsLoadEnv :=
  { terminalResult := .ok ()
    drmResult := .error .noConnectors
    gbmResult := .ok ()
    eglResult := .ok ()
    lockResult := .ok 5
    addFbResult := fun bo => .ok (bo + 2)
    setCrtcResult := fun _ => .ok ()
    framebufferResult := .ok () }

/-- The glyph stored at index 32 of the narrow example font: the space glyph
of a width-1 PSF font, whose advance is `header.width / 2 = 0` after the
space override in `Font::load` (font.rs lines 99-107). -/
def zeroAdvanceGlyph : Glyph := { region := 32, advance := 0 }

/-- A font of the shape `Font::load` produces for a width-1 PSF font without
a unicode table: 33 glyphs, the space glyph (index 32 = code point of the
space character) with advance 0. -/
def exNarrowFont : Font :=
  { glyphs := List.replicate 32 { region := 0, advance := 1 } ++ [zeroAdvanceGlyph]
    charMap := none }

/-- The space character, `Char.ofNat 32`. -/
def spaceChar : Char := Char.ofNat 32

/-- The single glyph of the one-glyph example font. -/
def exGlyphA : Glyph := { region := 1, advance := 4 }

/-- A font with one glyph and no unicode table: every character outside
index 0 falls back to the default glyph. -/
def exFontOne : Font := { glyphs := [exGlyphA], charMap := none }

/-! ## Shared helper lemmas -/

/-- `Graphics::load` leaves the guard set no matter how it exits: every
branch of the function stores or keeps `true` in `GRAPHICS_LOADED`. -/
theorem graphicsLoad_guard_true (g : Bool) (env : GraphicsLoadEnv) :
    (graphicsLoad g env).1 = true := by
  unfold graphicsLoad
  repeat' split
  all_goals rfl

/-- Entries that `Gpu::open` skips do not affect its result. -/
theorem gpuOpen_skip (x : Except Nat DirEntry) (rest : List (Except Nat DirEntry))
    (h : entrySkipped x = true) : gpuOpen (x :: rest) = gpuOpen rest := by
  cases x with
  | error e => simp [entrySkipped] at h
  | ok entry =>
    cases hft : entry.fileTypeResult with
    | error e => simp [entrySkipped, hft] at h
    | ok isChar =>
      cases isChar with
      | false => simp [gpuOpen, hft]
      | true =>
        cases hn : entry.name with
        | none => simp [gpuOpen, hft, hn]
        | some n =>
          have hpre : cardName.isPrefixOf n = false := by
            simp [entrySkipped, hft, hn] at h
            simpa using h
          simp [gpuOpen, hft, hn, hpre]

/-- When every directory entry is skipped, `Gpu::open` returns the
`notFound` error. -/
theorem gpuOpen_all_skipped (entries : List (Except Nat DirEntry))
    (h : ∀ x ∈ entries, entrySkipped x = true) :
    gpuOpen entries = .error .notFound := by
  induction entries with
  | nil => rfl
  | cons x rest ih =>
    rw [gpuOpen_skip x rest (h x (by simp))]
    exact ih fun y hy => h y (by simp [hy])

/-- The advance sum over a cons. -/
theorem advanceSum_cons (f : Font) (d : Glyph) (c : Char) (cs : List Char) :
    advanceSum f d (c :: cs) = ((f.glyphOrDefault d c).advance : Int) + advanceSum f d cs := by
  simp [advanceSum]

/-- `toInt32` is the identity on values already in the i32 range. -/
theorem toInt32_eq_self (x : Int) (h1 : -2147483648 <= x) (h2 : x < 2147483648) :
    toInt32 x = x := by
  unfold toInt32
  omega

/-- Wrapping an already-wrapped right summand does not change the result:
`toInt32` is a homomorphism for the wrapped addition. -/
theorem toInt32_add_right (a b : Int) : toInt32 (a + toInt32 b) = toInt32 (a + b) := by
  unfold toInt32
  omega

/-- Unfolding equation of the `draw_text` loop on a cons, phrased with
`Font.glyphOrDefault`. -/
theorem drawTextQuads_cons (f : Font) (d : Glyph) (hd : f.defaultGlyph = some d)
    (c : Char) (cs : List Char) (posX adv : Int) :
    drawTextQuads f (c :: cs) posX adv =
      match drawTextQuads f cs posX
          (toInt32 (adv + toInt32 ((f.glyphOrDefault d c).advance : Int))) with
      | none => none
      | some rest => some ((toInt32 (posX + adv), f.glyphOrDefault d c) :: rest) := by
  simp only [drawTextQuads, hd, Font.glyphOrDefault]

/-- The advance sum over `take (i + 1)`, given the character at index i. -/
theorem advanceSum_take_succ (f : Font) (d : Glyph) :
    ∀ (text : List Char) (i : Nat) (c : Char), text.get? i = some c ->
      advanceSum f d (text.take (i + 1)) =
        advanceSum f d (text.take i) + ((f.glyphOrDefault d c).advance : Int) := by
  intro text
  induction text with
  | nil => intro i c h; simp at h
  | cons a as ih =>
    intro i c h
    cases i with
    | zero =>
      simp at h
      subst h
      simp [advanceSum]
    | succ j =>
      simp only [List.get?_cons_succ] at h
      simp only [List.take_succ_cons, advanceSum_cons, ih j c h]
      ring

/-- A list whose consecutive `get?` entries are always related is a chain. -/
theorem chain'_of_get? {a : Type} (R : a -> a -> Prop) (l : List a)
    (h : ∀ i x y, l.get? i = some x -> l.get? (i + 1) = some y -> R x y) :
    List.Chain' R l := by
  induction l with
  | nil => simp
  | cons x xs ih =>
    rw [List.chain'_cons']
    constructor
    · intro y hy
      have hy0 : xs.get? 0 = some y := by
        cases xs with
        | nil => simp at hy
        | cons z zs => simp at hy; simp [hy]
      exact h 0 x y rfl hy0
    · apply ih
      intro i p q hp hq
      exact h (i + 1) p q hp hq

/-- Description of the quads produced by the `draw_text` loop: with a
default glyph present, the loop succeeds, draws one quad per character, and
the quad of the k-th character sits at the i32-wrap of the start position
plus the entry cursor plus the advance sum of the previous characters, each
quad using the looked-up or default glyph. -/
theorem drawTextQuads_spec (f : Font) (d : Glyph) (hd : f.defaultGlyph = some d)
    (text : List Char) (posX : Int) : ∀ adv : Int,
    ∃ qs, drawTextQuads f text posX adv = some qs ∧
      qs.length = text.length ∧
      (∀ k c, text.get? k = some c →
        qs.get? k = some (toInt32 (posX + adv + advanceSum f d (text.take k)),
          f.glyphOrDefault d c)) := by
  induction text with
  | nil =>
    intro adv
    refine ⟨[], by simp [drawTextQuads], rfl, ?_⟩
    intro k c hk
    simp at hk
  | cons c cs ih =>
    intro adv
    obtain ⟨qs', hq', hlen', hidx'⟩ :=
      ih (toInt32 (adv + toInt32 ((f.glyphOrDefault d c).advance : Int)))
    refine ⟨(toInt32 (posX + adv), f.glyphOrDefault d c) :: qs', ?_, by simp [hlen'], ?_⟩
    · rw [drawTextQuads_cons f d hd, hq']
    · intro k x hk
      match k with
      | 0 =>
        simp at hk
        subst hk
        simp [advanceSum]
      | Nat.succ k =>
        simp only [List.get?_cons_succ] at hk ⊢
        rw [hidx' k x hk, Nat.succ_eq_add_one, List.take_succ_cons, advanceSum_cons]
        simp only [Option.some.injEq, Prod.mk.injEq]
        refine ⟨?_, trivial⟩
        unfold toInt32
        omega

/-! ## Claim theorems -/

/-- Claim C1: a successful `Graphics::present_frame` issues exactly the
sequence render, GPU swap, front-buffer lock, register-new-framebuffer,
page-flip-new, drain-events, destroy-old: the handle destroyed is exactly
the one current at entry (`self.drm_fb`), the destruction comes only after
`receive_events` returned, and the newly registered handle and buffer
object become current for the next cycle. -/
theorem c1_retire_after_flip (env : PresentEnv) (s s2 : Graphics)
    (tr : List PresentAction) (h : presentFrame env s = (tr, s2, none)) :
    env.lockResult = .ok s2.bufferObject ∧
    env.addFbResult s2.bufferObject = .ok s2.drmFb ∧
    tr = [.renderFrame, .swapBuffers, .lockFrontBuffer, .addFramebuffer s2.bufferObject,
      .pageFlip s2.drmFb, .receiveEvents, .destroyFramebuffer s.drmFb] := by
  unfold presentFrame at h
  repeat' split at h
  all_goals simp only [Prod.mk.injEq] at h
  all_goals obtain ⟨htr, hs2, hnone⟩ := h
  all_goals first
    | exact Option.noConfusion hnone
    | (subst htr
       cases hs2
       exact ⟨by assumption, by assumption, rfl⟩)

/-- Witness for C1: a concrete all-successful present environment, entry
state (fb 3, object 4), exit state (fb 7, object 5). -/
theorem c1_witness :
    exPresentOkEnv.lockResult = .ok exGraphicsAfter.bufferObject ∧
    exPresentOkEnv.addFbResult exGraphicsAfter.bufferObject = .ok exGraphicsAfter.drmFb ∧
    [PresentAction.renderFrame, .swapBuffers, .lockFrontBuffer, .addFramebuffer 5, .pageFlip 7,
      .receiveEvents, .destroyFramebuffer 3] =
      [.renderFrame, .swapBuffers, .lockFrontBuffer, .addFramebuffer exGraphicsAfter.bufferObject,
        .pageFlip exGraphicsAfter.drmFb, .receiveEvents,
        .destroyFramebuffer exGraphics.drmFb] :=
  c1_retire_after_flip exPresentOkEnv exGraphics exGraphicsAfter
    [.renderFrame, .swapBuffers, .lockFrontBuffer, .addFramebuffer 5, .pageFlip 7,
      .receiveEvents, .destroyFramebuffer 3] rfl

/-- Claim C2: when any of the five steps GPU swap, front-buffer acquire,
framebuffer registration, page-flip request, or event drain fails,
`present_frame` returns an error, the `drm_fb` and `buffer_object` fields
keep their pre-call values, and no framebuffer handle is destroyed. -/
theorem c2_failure_rolls_back (env : PresentEnv) (s : Graphics)
    (h : firstFiveOk env = false) :
    (presentFrame env s).2.1 = s ∧
    (presentFrame env s).2.2.isSome = true ∧
    ∀ fb, PresentAction.destroyFramebuffer fb ∉ (presentFrame env s).1 := by
  unfold firstFiveOk at h
  repeat' split at h
  all_goals first
    | exact Bool.noConfusion h
    | (refine ⟨?_, ?_, ?_⟩ <;> simp [presentFrame, *])

/-- Witness for C2: the page-flip request fails with error 22; the state is
unchanged and an error is reported. -/
theorem c2_witness :
    firstFiveOk exPresentFailEnv = false ∧
    (presentFrame exPresentFailEnv exGraphics).2.1 = exGraphics ∧
    (presentFrame exPresentFailEnv exGraphics).2.2.isSome = true :=
  ⟨rfl, (c2_failure_rolls_back exPresentFailEnv exGraphics rfl).1,
    (c2_failure_rolls_back exPresentFailEnv exGraphics rfl).2.1⟩

/-- Claim C3: whenever `Graphics::load` runs while the atomic load guard is
already set, it returns `AlreadyLoaded` with an empty step trace — no device
or display state is touched — and the guard stays set. -/
theorem c3_second_load_already_loaded (env : GraphicsLoadEnv) :
    graphicsLoad true env = (true, [], .error .alreadyLoaded) := rfl

/-- Claim C4: for a connected output with a non-empty mode list, the
selected mode is one of the list flagged preferred when such a mode exists,
and the first listed mode otherwise; in particular `Drm::load` selects
1920x1080@60 from [1920x1080@60 (preferred), 1280x720@60] and 720x480@60
from the unflagged list [720x480@60, 640x480@60]. -/
theorem c4_mode_selection (m : Mode) (ms : List Mode) :
    (∃ sel, selectMode (m :: ms) = some sel ∧ sel ∈ m :: ms ∧
      ((∃ p ∈ m :: ms, p.preferred = true) → sel.preferred = true) ∧
      ((∀ p ∈ m :: ms, p.preferred = false) → sel = m)) ∧
    drmLoadModeSelection [{ connected := true, modes := [mode1080p, mode720p] }] =
      .ok (some mode1080p) ∧
    drmLoadModeSelection [{ connected := true, modes := [mode480p, mode480s] }] =
      .ok (some mode480p) := by
  refine ⟨?_, rfl, rfl⟩
  cases hf : (m :: ms).find? fun x => x.preferred with
  | some p =>
    refine ⟨p, by simp [selectMode, hf], List.mem_of_find?_eq_some hf,
      fun _ => List.find?_some hf, ?_⟩
    intro hall
    have hp := List.find?_some hf
    rw [hall p (List.mem_of_find?_eq_some hf)] at hp
    cases hp
  | none =>
    refine ⟨m, by simp [selectMode, hf], by simp, ?_, fun _ => rfl⟩
    rintro ⟨p, hp, hpref⟩
    have := List.find?_eq_none.mp hf p hp
    simp [hpref] at this

/-- Witness for C4: the preferred-mode scenario, with the inner hypotheses
discharged at the concrete list. -/
theorem c4_witness : selectMode [mode1080p, mode720p] = some mode1080p := by
  obtain ⟨⟨sel, hsel, hmem, hpref, -⟩, -, -⟩ := c4_mode_selection mode1080p [mode720p]
  have hp : sel.preferred = true := hpref ⟨mode1080p, by simp, rfl⟩
  have hone : sel = mode1080p := by
    rcases List.mem_cons.mp hmem with h | h
    · exact h
    · simp at h
      rw [h] at hp
      simp [mode720p] at hp
  rw [hone] at hsel
  exact hsel

/-- Claim C5: `Drop for Drm` re-issues exactly one `set_crtc` bind carrying
the captured CRTC handle, framebuffer, position, driven connectors and mode
when an original state was captured; the bind result does not influence the
drop (a failure is not propagated); with no captured state no bind is
issued. -/
theorem c5_drop_restores_original_state (ci : CrtcInfo) (conns : List Nat)
    (st : OriginalState) (res res2 : BindCall → Except DrmError Unit) :
    drmDrop (some (captureOriginalState ci conns)) res =
      [{ crtc := ci.handle, framebuffer := ci.framebuffer, position := ci.position,
         connectors := conns, mode := ci.mode }] ∧
    drmDrop none res = [] ∧
    drmDrop (some st) res = drmDrop (some st) res2 :=
  ⟨rfl, rfl, rfl⟩

/-- Claim C6 (amended): `Gpu::open` scans `/dev/dri` in order, skipping
non-matching entries; the first matching character device named `card*`
decides the outcome — its open success is returned and its open failure is
propagated as that I/O error without trying later matching nodes; the
no-device-found error is returned exactly when every entry is skipped. -/
theorem c6_first_match_decides (pre : List (Except Nat DirEntry)) (entry : DirEntry)
    (post : List (Except Nat DirEntry)) (n : List Char)
    (hpre : ∀ x ∈ pre, entrySkipped x = true)
    (hchar : entry.fileTypeResult = .ok true)
    (hname : entry.name = some n)
    (hcard : cardName.isPrefixOf n = true) :
    gpuOpen (pre ++ .ok entry :: post) =
      (match entry.openResult with
        | .ok handle => .ok handle
        | .error e => .error (.io e)) ∧
    (∀ entries, (∀ x ∈ entries, entrySkipped x = true) →
      gpuOpen entries = .error .notFound) := by
  constructor
  · induction pre with
    | nil => cases ho : entry.openResult <;> simp [gpuOpen, hchar, hname, hcard, ho]
    | cons x rest ih =>
      rw [List.cons_append, gpuOpen_skip x _ (hpre x (by simp))]
      exact ih fun y hy => hpre y (by simp [hy])
  · exact gpuOpen_all_skipped

/-- Witness for C6: a single matching entry that opens as handle 3, and the
empty listing yielding the no-device-found error. -/
theorem c6_witness :
    gpuOpen [.ok entryCard1Ok] = .ok 3 ∧ gpuOpen [] = .error .notFound := by
  have h := c6_first_match_decides [] entryCard1Ok [] exCard1
    (by intro x hx; cases hx) rfl rfl (by decide)
  exact ⟨h.1, h.2 [] (by intro x hx; cases hx)⟩

/-- Claim C6 is false as stated on the code: with two matching nodes where
the first fails to open (error 13) and the second would open fine,
`Gpu::open` returns the propagated open error of the first — it neither
tries the later matching node nor reports the no-device-found error. -/
theorem c6_counterexample :
    gpuOpen [.ok entryCard0Denied, .ok entryCard1Ok] = .error (.io 13) ∧
    gpuOpen [.ok entryCard1Ok] = .ok 3 ∧
    GpuOpenError.io 13 ≠ GpuOpenError.notFound :=
  ⟨rfl, rfl, by decide⟩

/-- Claim C7 is false on the code: a fully successful `Egl::load` performs
its complete EGL call sequence and that sequence contains no swap-interval
call (in particular none with argument 0). -/
theorem c7_counterexample :
    (eglLoad exEglEnv).2 = .ok 41 ∧
    EglCall.swapInterval 0 ∉ (eglLoad exEglEnv).1 := by
  refine ⟨rfl, ?_⟩
  decide

/-- Claim C7 (amended): `Egl::load` never issues a swap-interval call, in
any environment and with any argument; the swap interval is left at the EGL
default. -/
theorem c7_no_swap_interval (env : EglEnv) (k : Nat) :
    EglCall.swapInterval k ∉ (eglLoad env).1 := by
  unfold eglLoad
  repeat' split
  all_goals simp

/-- Claim C8 (amended): for every font with a default glyph (nonempty glyph
table) and every text, `draw_text` draws one quad per character; the k-th
character's quad sits at the i32-wrap of the command position plus the sum
of the stored advance widths of the previous characters' glyphs (the i32
cursor wraps, release-build semantics); a character whose glyph is absent
uses the font's default glyph rather than aborting or skipping the draw;
and whenever every prefix position stays inside the i32 range (no overflow),
the positions are non-decreasing, strictly increasing if in addition every
used glyph's stored advance is positive. -/
theorem c8_text_quads (f : Font) (d : Glyph) (hd : f.defaultGlyph = some d)
    (text : List Char) (posX : Int) :
    ∃ qs, drawText f text posX = some qs ∧
      qs.length = text.length ∧
      (∀ k c, text.get? k = some c →
        qs.get? k = some (toInt32 (posX + advanceSum f d (text.take k)),
          f.glyphOrDefault d c)) ∧
      ((∀ k, k ≤ text.length →
          -2147483648 ≤ posX + advanceSum f d (text.take k) ∧
            posX + advanceSum f d (text.take k) < 2147483648) →
        List.Chain' (fun a b : Int × Glyph => a.1 ≤ b.1) qs ∧
        ((∀ c ∈ text, 0 < (f.glyphOrDefault d c).advance) →
          List.Chain' (fun a b : Int × Glyph => a.1 < b.1) qs)) := by
  obtain ⟨qs, h1, h2, h3⟩ := drawTextQuads_spec f d hd text posX 0
  have h3' : ∀ k c, text.get? k = some c →
      qs.get? k = some (toInt32 (posX + advanceSum f d (text.take k)),
        f.glyphOrDefault d c) := by
    intro k c hk
    have := h3 k c hk
    simpa using this
  refine ⟨qs, h1, h2, h3', ?_⟩
  intro hrange
  have hplain : ∀ k c, text.get? k = some c →
      qs.get? k = some (posX + advanceSum f d (text.take k), f.glyphOrDefault d c) := by
    intro k c hk
    have hklen : k < text.length := by
      by_contra hc
      push_neg at hc
      rw [List.get?_eq_none.mpr hc] at hk
      cases hk
    have hb := hrange k (Nat.le_of_lt hklen)
    rw [h3' k c hk, toInt32_eq_self _ hb.1 hb.2]
  have step : ∀ i, i + 1 < qs.length →
      ∃ c1 c2,
        qs.get? i = some (posX + advanceSum f d (text.take i), f.glyphOrDefault d c1) ∧
        qs.get? (i + 1) =
          some (posX + advanceSum f d (text.take (i + 1)), f.glyphOrDefault d c2) ∧
        advanceSum f d (text.take (i + 1)) =
          advanceSum f d (text.take i) + ((f.glyphOrDefault d c1).advance : Int) ∧
        c1 ∈ text := by
    intro i hi
    have hi1 : i < text.length := by rw [h2] at hi; omega
    have hi2 : i + 1 < text.length := by rw [h2] at hi; omega
    cases hc1 : text.get? i with
    | none => rw [List.get?_eq_none] at hc1; exact absurd hc1 (by omega)
    | some c1 =>
      cases hc2 : text.get? (i + 1) with
      | none => rw [List.get?_eq_none] at hc2; exact absurd hc2 (by omega)
      | some c2 =>
        exact ⟨c1, c2, hplain i c1 hc1, hplain (i + 1) c2 hc2,
          advanceSum_take_succ f d text i c1 hc1, List.get?_mem hc1⟩
  constructor
  · apply chain'_of_get?
    intro i p q hp hq
    have hib : i + 1 < qs.length := by
      by_contra hc
      push_neg at hc
      rw [List.get?_eq_none.mpr hc] at hq
      cases hq
    obtain ⟨c1, c2, hq1, hq2, hsum, hmem⟩ := step i hib
    rw [hp] at hq1
    rw [hq] at hq2
    obtain rfl := Option.some.inj hq1
    obtain rfl := Option.some.inj hq2
    dsimp only
    omega
  · intro hpos
    apply chain'_of_get?
    intro i p q hp hq
    have hib : i + 1 < qs.length := by
      by_contra hc
      push_neg at hc
      rw [List.get?_eq_none.mpr hc] at hq
      cases hq
    obtain ⟨c1, c2, hq1, hq2, hsum, hmem⟩ := step i hib
    rw [hp] at hq1
    rw [hq] at hq2
    obtain rfl := Option.some.inj hq1
    obtain rfl := Option.some.inj hq2
    have hadv : 0 < (f.glyphOrDefault d c1).advance := hpos c1 hmem
    dsimp only
    omega

/-- Witness for C8 (amended): the one-glyph font draws a space (its glyph is
absent, so the default is used) without failing, and the no-overflow
hypothesis holds at this concrete input, yielding the strict chain. -/
theorem c8_witness : (drawText exFontOne [spaceChar] 10).isSome = true := by
  obtain ⟨qs, h1, -, -, h4⟩ := c8_text_quads exFontOne exGlyphA rfl [spaceChar] 10
  have hchain := h4 (by
    intro k hk
    have hk1 : k ≤ 1 := by simpa using hk
    interval_cases k <;> constructor <;> decide)
  simp [h1]

/-- Claim C8 is false as stated: with the glyph table `Font::load` produces
for a width-1 PSF font (the space glyph's advance is `width / 2 = 0`),
drawing two spaces places both quads at horizontal position 0 — the
positions are not strictly increasing. -/
theorem c8_counterexample :
    (drawText exNarrowFont [spaceChar, spaceChar] 0).map (fun qs => qs.map Prod.fst) =
      some [0, 0] ∧
    ¬ List.Chain' (fun a b : Int => a < b) [0, 0] := by
  refine ⟨rfl, fun hch => ?_⟩
  rw [List.chain'_cons] at hch
  exact absurd hch.1 (lt_irrefl 0)

/-- Claim C9: a `Graphics::load` call that fails after swapping the guard to
true never resets it (every exit of `load` leaves the guard set; only
`Drop for Graphics` stores false), so every subsequent `load` call returns
`AlreadyLoaded` and a caller-side retry of a failed load is impossible. -/
theorem c9_failed_load_blocks_retry (env : GraphicsLoadEnv) :
    (graphicsLoad false env).1 = true ∧
    (∀ s destroyResult, (graphicsDrop s destroyResult).1 = false) ∧
    ((graphicsLoad false env).2.2.isOk = false →
      ∀ env2 : GraphicsLoadEnv,
        graphicsLoad (graphicsLoad false env).1 env2 = (true, [], .error .alreadyLoaded)) := by
  refine ⟨graphicsLoad_guard_true false env, fun s dr => rfl, ?_⟩
  intro _ env2
  rw [graphicsLoad_guard_true false env]
  rfl

/-- Witness for C9: `Drm::load` fails with `NoConnectors`; the failed load
leaves the guard set and the retry returns `AlreadyLoaded`. -/
theorem c9_witness :
    (graphicsLoad false exLoadFailEnv).2.2.isOk = false ∧
    graphicsLoad (graphicsLoad false exLoadFailEnv).1 exLoadFailEnv =
      (true, [], .error .alreadyLoaded) :=
  ⟨rfl, (c9_failed_load_blocks_retry exLoadFailEnv).2.2 rfl exLoadFailEnv⟩

/-- Claim C10: a connected output whose reported mode list is empty drives
`Drm::load` into the out-of-bounds index `connector.modes()[0]` (the
selection is `none`, the model of the index panic) instead of returning a
`DrmError`; and mode selection is total whenever the selected connector
reports at least one mode. -/
theorem c10_empty_mode_list_panics :
    drmLoadModeSelection [{ connected := true, modes := [] }] = .ok none ∧
    (∀ e : DrmError, drmLoadModeSelection [{ connected := true, modes := [] }] ≠ .error e) ∧
    (∀ (m : Mode) (ms : List Mode), (selectMode (m :: ms)).isSome = true) := by
  refine ⟨rfl, ?_, ?_⟩
  · intro e h
    rw [show drmLoadModeSelection [{ connected := true, modes := [] }] = .ok none from rfl] at h
    cases h
  · intro m ms
    unfold selectMode
    cases hf : (m :: ms).find? fun x => x.preferred with
    | some p => rfl
    | none => rfl

end PixelZero
